import Mathlib

/-!
# Verification of the Debatrix batch-judging driver (`run_batch.py`)

This file shallowly embeds the concurrency-orchestration core of
`run_batch.py`: the per-unit workflow `work`, the gated task wrapper
`wait_and_work`, the fan-out iteration of `main`, and a small-step
transition system modelling the scheduler's task interleavings
(semaphore gate, service task, drain-then-cancel shutdown).

External collaborators (the platform/session objects from the `debatrix`
package) are modelled as records of outcomes: each awaited call on a
session is a field holding the value the call returns or the exception it
raises.  The driver's own control flow — which calls are inside the
`try`/`except Exception`/`finally`, what is printed on each path, when the
semaphore is released, when the service task is cancelled — is translated
line by line from the source.
-/

/-- A Python exception as seen by `run_batch.py`'s handlers: either an
ordinary `Exception` carrying its message (caught by `except Exception`),
or `asyncio.CancelledError` (a `BaseException`, *not* caught by
`except Exception`, but caught by `except CancelledError` in `main`). -/
inductive PyErr where
  | exc (msg : String)
  | cancelled
deriving DecidableEq, Repr

/-- `ChatModelBackend` values used at `run_batch.py` line 41. -/
inductive ChatModelBackend where
  | TEST
  | OPENAI
deriving DecidableEq, Repr

/-- The `framework` CLI choice (`gpt`, `non_iter`, `debatrix`). -/
inductive Framework where
  | gpt
  | non_iter
  | debatrix
deriving DecidableEq, Repr

/-- The `llm` CLI choice (`test`, `chatgpt`, `gpt4`). -/
inductive LLM where
  | test
  | chatgpt
  | gpt4
deriving DecidableEq, Repr

/-- `ScriptArgs` from `run_batch.py` (the `repeat` field is renamed
`repeatCount` because `repeat` is a Lean keyword). -/
structure ScriptArgs where
  preset : String := ""
  framework : Framework := .gpt
  start : Int := 0
  stop : Int := 1
  repeatCount : Int := 1
  dimensions : Option (List String) := none
  should_summarize : Bool := false
  llm : LLM := .test
  debug_server : Bool := false
  root_dir : String := ""

/-- `config["arena"]`: the one key `work` touches. -/
structure ArenaConfig where
  streaming_delay : Nat

/-- `config["model"]["chat_config"]["test_config"]`. -/
structure TestConfig where
  predict_delay : Nat

/-- `config["model"]["chat_config"]["openai_config"]`. -/
structure OpenAIConfig where
  model : String

/-- `config["model"]["chat_config"]`. -/
structure ChatConfig where
  backend : ChatModelBackend
  test_config : TestConfig
  openai_config : OpenAIConfig

/-- `config["model"]`. -/
structure ModelConfig where
  chat_config : ChatConfig

/-- `config["panel"]["judge_config"]`. -/
structure JudgeConfig where
  allow_concurrency : Bool
  allow_ai_callback : Bool
  analyze_speech : Bool
  iterate_analysis : Bool

/-- `config["panel"]["panel_config"]`. -/
structure PanelSubConfig where
  allow_concurrency : Bool
  allow_ai_callback : Bool

/-- `config["panel"]`. -/
structure PanelConfig where
  judge_config : JudgeConfig
  panel_config : PanelSubConfig

/-- One entry of `config["manager"]["dimensions"]`. -/
structure DimensionConfig where
  name : String
  weight : Int

/-- `config["manager"]`. -/
structure ManagerConfig where
  should_summarize : Bool
  dimensions : List DimensionConfig

/-- `config["recorder"]`. -/
structure RecorderConfig where
  include_prompts : Bool
  verdict_only : Bool

/-- The nested configuration dictionary `session.config_data`, restricted
to the keys `work` reads or writes. -/
structure ConfigData where
  arena : ArenaConfig
  model : ModelConfig
  panel : PanelConfig
  manager : ManagerConfig
  recorder : RecorderConfig

/-- The configuration mutation performed by `work` (lines 33–70) before
`session.update_config()` is awaited, as a pure function of the previous
configuration and the script arguments. -/
def applyConfig (args : ScriptArgs) (c : ConfigData) : ConfigData :=
  { c with
    arena := { c.arena with streaming_delay := 0 }
    model :=
      { c.model with
        chat_config :=
          { c.model.chat_config with
            backend := if args.llm = .test then .TEST else .OPENAI
            test_config := { c.model.chat_config.test_config with predict_delay := 0 }
            openai_config :=
              { c.model.chat_config.openai_config with
                model :=
                  if args.llm = .gpt4 then "gpt-4-0125-preview" else "gpt-3.5-turbo-0125" } } }
    panel :=
      { c.panel with
        judge_config :=
          { c.panel.judge_config with
            allow_concurrency := true
            allow_ai_callback := false
            analyze_speech := args.framework ≠ .gpt
            iterate_analysis := args.framework = .debatrix }
        panel_config :=
          { c.panel.panel_config with
            allow_concurrency := true
            allow_ai_callback := false } }
    manager :=
      { c.manager with
        should_summarize := args.should_summarize
        dimensions :=
          match args.dimensions with
          | none => c.manager.dimensions
          | some dims =>
              c.manager.dimensions.map fun d =>
                if d.name ∈ dims then d else { d with weight := -1 } }
    recorder := { c.recorder with include_prompts := false, verdict_only := true } }

/-- `DebaterVerdict`: a debater's name and score, as read by the prints. -/
structure DebaterVerdict where
  debater_name : String
  score : Int

/-- `WinnerVerdict`: the winner field read by the prints. -/
structure WinnerVerdict where
  winner : String

/-- A `Verdict` as consumed by `work`'s reporting. -/
structure Verdict where
  debaters_verdict : List DebaterVerdict
  winner_verdict : WinnerVerdict

/-- One element of `result.dimensional_verdicts`. -/
structure DimensionalVerdict where
  verdict : Verdict

/-- A `DebateResult` as consumed by `work`'s reporting. -/
structure DebateResult where
  final_verdict : Option Verdict
  dimensional_verdicts : List DimensionalVerdict

/-- `session.cur_info`: only the `motion` text is read (line 77). -/
structure DebateInfo where
  motion : String

/-- The external session collaborator, modelled as a record of outcomes:
each field gives the value returned — or the exception raised — by the
corresponding awaited call in `work`.  `motions` entries are
`(motion_code, extra)` pairs; the source reads index `[0]` of an entry. -/
structure Session where
  config_data : ConfigData
  update_config : Except PyErr Unit
  motions : List (String × String)
  select_debate : String → Except PyErr Unit
  cur_info : Option DebateInfo
  start_debate : Except PyErr (Option DebateResult)
  save_record : Except PyErr String

/-- One line printed by `work`, kept as a structured event so that the
distinct report shapes (summary scores, per-dimension scores, cancelled
notice, failure notice, persisted location) stay distinguishable. -/
inductive OutLine where
  | startLn (title : String)
  | endLn (title : String)
  | debateCancelled
  | scoreLn (debater_name : String) (score : Int)
  | winnerLn (winner : String)
  | scoresLn (debater_name : String) (scores : List Int)
  | winnersLn (winners : List String)
  | savedAt (loc : String)
  | failed (msg : String)
deriving DecidableEq, Repr

/-- Is this output line the "Verdict saved at ..." line? -/
def OutLine.isSavedAt : OutLine → Bool
  | .savedAt _ => true
  | _ => false

/-- Is this output line the "Failed: ..." line? -/
def OutLine.isFailed : OutLine → Bool
  | .failed _ => true
  | _ => false

/-- Python list indexing `l[i]`: a negative index counts from the end;
out of range raises `IndexError` (here: `none`). -/
def pyGet {α : Type} (l : List α) (i : Int) : Option α :=
  let j : Int := if i < 0 then (l.length : Int) + i else i
  if j < 0 then none else l[j.toNat]?

/-- The summary report of lines 88–95 (`should_summarize` true): assert
`final_verdict` is present (an `AssertionError` if not), then one score
line per debater and a winner line. -/
def summaryReport (r : DebateResult) : Except PyErr (List OutLine) :=
  match r.final_verdict with
  | none => .error (.exc "AssertionError")
  | some fv =>
      .ok ((fv.debaters_verdict.map fun dv => OutLine.scoreLn dv.debater_name dv.score)
        ++ [OutLine.winnerLn fv.winner_verdict.winner])

/-- The `defaultdict(list)` accumulation of line 102: append `sc` to the
bucket of `name`, creating the bucket at the end on first sight (Python
dicts preserve insertion order). -/
def addScore (acc : List (String × List Int)) (name : String) (sc : Int) :
    List (String × List Int) :=
  match acc with
  | [] => [(name, [sc])]
  | (n, ss) :: rest =>
      if n = name then (n, ss ++ [sc]) :: rest else (n, ss) :: addScore rest name sc

/-- The per-dimension report of lines 97–109 (`should_summarize` false):
collect every dimension's scores per debater and every dimension's winner,
then one scores line per debater and one winners line. -/
def dimensionalReport (r : DebateResult) : List OutLine :=
  let folded : List (String × List Int) × List String :=
    r.dimensional_verdicts.foldl
      (fun acc dv =>
        (dv.verdict.debaters_verdict.foldl
          (fun a d => addScore a d.debater_name d.score) acc.1,
         acc.2 ++ [dv.verdict.winner_verdict.winner]))
      ([], [])
  (folded.1.map fun p => OutLine.scoresLn p.1 p.2) ++ [OutLine.winnersLn folded.2]

/-- Lines 88–109: the report emitted for a present result, which can only
raise inside the summary branch (the assertion at line 90). -/
def runReport (args : ScriptArgs) (r : DebateResult) : Except PyErr (List OutLine) :=
  if args.should_summarize then summaryReport r else .ok (dimensionalReport r)

/-- The body of the `try` block (lines 82–111): run the debate, print
"End", then either the cancelled notice or the report, then save the
record.  Returns the lines printed inside the block and the exception (if
any) escaping it into `except`/`finally`. -/
def tryBody (args : ScriptArgs) (s : Session) (title : String) :
    List OutLine × Option PyErr :=
  match s.start_debate with
  | .error e => ([], some e)
  | .ok none =>
      match s.save_record with
      | .error e => ([OutLine.endLn title, OutLine.debateCancelled], some e)
      | .ok loc => ([OutLine.endLn title, OutLine.debateCancelled, OutLine.savedAt loc], none)
  | .ok (some r) =>
      match runReport args r with
      | .error e => ([OutLine.endLn title], some e)
      | .ok lines =>
          match s.save_record with
          | .error e => (OutLine.endLn title :: lines, some e)
          | .ok loc => (OutLine.endLn title :: (lines ++ [OutLine.savedAt loc]), none)

/-- What one `work(...)` call produced: the configuration it applied, the
lines it printed, how many times it awaited `session.reset_debate()`, and
the exception (if any) escaping `work` itself. -/
structure WorkResult where
  config : ConfigData
  output : List OutLine
  resetCount : Nat
  escaped : Option PyErr

/-- The `try`/`except Exception`/`finally` of lines 79–115, entered after
the "Start" print: an ordinary exception escaping the `try` body is caught
and printed as `Failed: <msg>`; a `CancelledError` passes `except
Exception` and escapes `work`; on every path the `finally` awaits
`session.reset_debate()` exactly once. -/
def workTail (args : ScriptArgs) (s : Session) (config : ConfigData)
    (title : String) : WorkResult :=
  match tryBody args s title with
  | (lines, none) => ⟨config, OutLine.startLn title :: lines, 1, none⟩
  | (lines, some (.exc m)) =>
      ⟨config, OutLine.startLn title :: (lines ++ [OutLine.failed m]), 1, none⟩
  | (lines, some .cancelled) =>
      ⟨config, OutLine.startLn title :: lines, 1, some .cancelled⟩

/-- `work` (lines 32–115), translated control-point by control-point.
The configuration mutation, `update_config`, the `motions[debate_id][0]`
lookup, `select_debate` and the `cur_info` assertion all happen *before*
the `try` at line 81: an exception there escapes `work` with nothing
printed and without running the `finally` reset.  The rest is `workTail`. -/
def work (s : Session) (debate_id : Int) (args : ScriptArgs) : WorkResult :=
  match s.update_config with
  | .error e => ⟨applyConfig args s.config_data, [], 0, some e⟩
  | .ok _ =>
      match pyGet s.motions debate_id with
      | none => ⟨applyConfig args s.config_data, [], 0, some (.exc "IndexError")⟩
      | some motion =>
          match s.select_debate motion.1 with
          | .error e => ⟨applyConfig args s.config_data, [], 0, some e⟩
          | .ok _ =>
              match s.cur_info with
              | none => ⟨applyConfig args s.config_data, [], 0, some (.exc "AssertionError")⟩
              | some info =>
                  workTail args s (applyConfig args s.config_data)
                    (motion.1 ++ " --- " ++ info.motion)

/-- What one spawned `wait_and_work(debate_id)` task produced.
`slotReleased` records whether the semaphore slot was given back before
the task ended. -/
structure UnitRun where
  slotReleased : Bool
  resetCount : Nat
  output : List OutLine
  escaped : Option PyErr

/-- `wait_and_work` (lines 125–127): inside `async with semaphore`, await
`platform.assign()` and hand the session to `work`.  The `async with`
releases the slot on every exit path; an exception from `assign` (or one
escaping `work`) propagates out of the task into the inner `TaskGroup`. -/
def wait_and_work (assigned : Except PyErr Session) (debate_id : Int)
    (args : ScriptArgs) : UnitRun :=
  match assigned with
  | .error e => ⟨true, 0, [], some e⟩
  | .ok s =>
      let w := work s debate_id args
      ⟨true, w.resetCount, w.output, w.escaped⟩

/-- Python `range(a, b)` over machine integers. -/
def pyRange (a b : Int) : List Int :=
  (List.range (b - a).toNat).map fun (k : Nat) => a + (k : Int)

/-- The task-creation order of lines 130–132: for each `debate_id` in
`range(start, stop)` (id-major), for each repetition in `range(repeat)`
(repeat-minor), one task.  A pair `(id, r)` stands for the task created
for `debate_id = id` by the `r`-th iteration of the repeat loop. -/
def spawnPairs (start stop repeatCount : Int) : List (Int × Int) :=
  ((pyRange start stop).map fun id => (pyRange 0 repeatCount).map fun r => (id, r)).flatten

/-- The per-task results of the fan-out in `main`, given the session (or
assignment failure) each spawned task would observe. -/
def batchUnitRuns (assign : Int × Int → Except PyErr Session) (args : ScriptArgs) :
    List UnitRun :=
  (spawnPairs args.start args.stop args.repeatCount).map fun p =>
    wait_and_work (assign p) p.1 args

/-- `main` returns normally iff no spawned task's exception escaped into
the inner `TaskGroup` (an escaped exception makes the group raise an
`ExceptionGroup` out of `main` after the `finally` shutdown). -/
def mainReturnsNormally (assign : Int × Int → Except PyErr Session)
    (args : ScriptArgs) : Bool :=
  (batchUnitRuns assign args).all fun u => u.escaped.isNone

/-- Terminal outcome of one spawned `wait_and_work` task, as the inner
`TaskGroup` sees it: finished normally (`work` contained any `Exception`
itself), finished with an escaped exception (e.g. from `platform.assign`
or from the pre-`try` part of `work`), or cancelled. -/
inductive Outcome where
  | completed
  | escaped
  | cancelled
deriving DecidableEq, Repr

/-- Phase of one spawned worker task: blocked on `semaphore.acquire`,
past the gate (slot held, body running), or terminal. -/
inductive WPhase where
  | waiting
  | holding
  | done (o : Outcome)
deriving DecidableEq, Repr

/-- Is this worker phase terminal? -/
def WPhase.isDone : WPhase → Bool
  | .done _ => true
  | _ => false

/-- Phase of the `platform.serve()` service task: not yet created, running,
cancellation requested by `task.cancel()`, or cancellation acknowledged
(awaiting it now raises `CancelledError`). -/
inductive SPhase where
  | notStarted
  | running
  | cancelRequested
  | acked
deriving DecidableEq, Repr

/-- Phase of the `main` coroutine: before the outer `TaskGroup` body ran,
awaiting the inner `TaskGroup` (workers live), in the `finally` awaiting
the cancelled service task, or returned (`ok` = no worker exception made
the inner group raise). -/
inductive MPhase where
  | start
  | running
  | awaiting
  | returned (ok : Bool)
deriving DecidableEq, Repr

/-- An instant of the scheduler with `M` spawned worker tasks: the
semaphore's free-permit count, each worker's phase, the service task's
phase and `main`'s phase.  The gate capacity is the source's constant 12
(line 123). -/
structure MState (M : Nat) where
  sem : Nat
  workers : Fin M → WPhase
  service : SPhase
  mainp : MPhase

/-- The number of workers currently past the gate (holding a slot). -/
def holdingCount {M : Nat} (s : MState M) : Nat :=
  (Finset.univ.filter fun i => s.workers i = WPhase.holding).card

/-- Did no worker task end with an escaped exception?  (Decides whether
the inner `TaskGroup`, and hence `main`, finishes without raising.) -/
def noEscape {M : Nat} (s : MState M) : Bool :=
  decide (∀ i, s.workers i ≠ WPhase.done .escaped)

/-- The scheduler before anything ran: all 12 permits free, every worker
yet to run, service task not created, `main` at its first line. -/
def initState (M : Nat) : MState M :=
  ⟨12, fun _ => .waiting, .notStarted, .start⟩

/-- One interleaving step of the cooperative scheduler of `main`
(lines 118–139).  Worker-task steps are enabled only while `main` is
awaiting the inner `TaskGroup` (`mainp = running`), matching the event
loop: tasks run between the creating coroutine's suspension points.
- `startServe`: `main` creates the service task and the worker tasks,
  then suspends on the inner `TaskGroup` join (the service task is
  scheduled before any worker coroutine has run).
- `acquire`: a waiting worker passes `semaphore.acquire` when a permit is
  free.
- `finish`: a worker past the gate runs its body to a terminal outcome;
  leaving the `async with semaphore` block returns the permit before the
  task ends, whatever the outcome.
- `cancelWaiting`: once some sibling escaped, the inner `TaskGroup`
  cancels a worker still blocked in `acquire`; it ends cancelled without
  ever holding a permit.
- `drainCancel`: the inner `TaskGroup` join completes once every worker
  is terminal; the `finally` immediately runs `task.cancel()` and `main`
  suspends on `await task`.
- `ack`: the cancelled service task acknowledges its cancellation.
- `ret`: `await task` raises `CancelledError`, caught by
  `except CancelledError: pass`; `main` returns, normally iff no worker
  escaped. -/
inductive Step (M : Nat) : MState M → MState M → Prop where
  | startServe (s : MState M) (h : s.mainp = .start) :
      Step M s { s with service := .running, mainp := .running }
  | acquire (s : MState M) (i : Fin M) (h1 : s.mainp = .running)
      (h2 : s.workers i = .waiting) (h3 : 0 < s.sem) :
      Step M s { s with
        sem := s.sem - 1
        workers := Function.update s.workers i .holding }
  | finish (s : MState M) (i : Fin M) (o : Outcome) (h1 : s.mainp = .running)
      (h2 : s.workers i = .holding) :
      Step M s { s with
        sem := s.sem + 1
        workers := Function.update s.workers i (.done o) }
  | cancelWaiting (s : MState M) (i j : Fin M) (h1 : s.mainp = .running)
      (h2 : s.workers i = .waiting) (h3 : s.workers j = .done .escaped) :
      Step M s { s with workers := Function.update s.workers i (.done .cancelled) }
  | drainCancel (s : MState M) (h1 : s.mainp = .running)
      (h2 : ∀ i, (s.workers i).isDone = true) :
      Step M s { s with service := .cancelRequested, mainp := .awaiting }
  | ack (s : MState M) (h : s.service = .cancelRequested) :
      Step M s { s with service := .acked }
  | ret (s : MState M) (h1 : s.mainp = .awaiting) (h2 : s.service = .acked) :
      Step M s { s with mainp := .returned (noEscape s) }

/-- States of the scheduler reachable from the initial state. -/
inductive Reachable (M : Nat) : MState M → Prop where
  | init : Reachable M (initState M)
  | step {s s' : MState M} (hr : Reachable M s) (hs : Step M s s') : Reachable M s'

/-- Setting a non-holding worker to `holding` raises the holding count by
one. -/
lemma card_update_to_holding {M : Nat} (f : Fin M → WPhase) (i : Fin M)
    (h : f i ≠ WPhase.holding) :
    (Finset.univ.filter fun j => Function.update f i WPhase.holding j = WPhase.holding).card
      = (Finset.univ.filter fun j => f j = WPhase.holding).card + 1 := by
  have hset : (Finset.univ.filter fun j => Function.update f i WPhase.holding j = WPhase.holding)
      = insert i (Finset.univ.filter fun j => f j = WPhase.holding) := by
    ext j
    by_cases hj : j = i
    · subst hj
      simp [Function.update_same]
    · simp [Function.update_noteq hj, hj]
  rw [hset, Finset.card_insert_of_not_mem (by simp [h])]

/-- Setting a holding worker to a non-holding phase lowers the holding
count by one. -/
lemma card_update_from_holding {M : Nat} (f : Fin M → WPhase) (i : Fin M) (v : WPhase)
    (h : f i = WPhase.holding) (hv : v ≠ WPhase.holding) :
    (Finset.univ.filter fun j => f j = WPhase.holding).card
      = (Finset.univ.filter fun j => Function.update f i v j = WPhase.holding).card + 1 := by
  have hset : (Finset.univ.filter fun j => f j = WPhase.holding)
      = insert i (Finset.univ.filter fun j => Function.update f i v j = WPhase.holding) := by
    ext j
    by_cases hj : j = i
    · subst hj
      simp [Function.update_same, h, hv]
    · simp [Function.update_noteq hj, hj]
  rw [hset, Finset.card_insert_of_not_mem (by simp [Function.update_same, hv])]

/-- An update that neither enters nor leaves `holding` keeps the holding
count unchanged. -/
lemma card_update_other {M : Nat} (f : Fin M → WPhase) (i : Fin M) (v : WPhase)
    (h : f i ≠ WPhase.holding) (hv : v ≠ WPhase.holding) :
    (Finset.univ.filter fun j => Function.update f i v j = WPhase.holding).card
      = (Finset.univ.filter fun j => f j = WPhase.holding).card := by
  congr 1
  ext j
  by_cases hj : j = i
  · subst hj
    simp [Function.update_same, h, hv]
  · simp [Function.update_noteq hj, hj]

/-- The inductive invariant of the scheduler: the semaphore's accounting
(free permits + slots held = capacity 12), the lifecycle ordering between
`main`, the workers and the service task, and the meaning of `main`'s
return flag. -/
structure SchedInv {M : Nat} (s : MState M) : Prop where
  semCap : s.sem + holdingCount s = 12
  startWaiting : s.mainp = .start → ∀ i, s.workers i = .waiting
  startService : s.mainp = .start → s.service = .notStarted
  serviceStartOnly : s.service = .notStarted → s.mainp = .start
  runningService : s.mainp = .running → s.service = .running
  cancelAfterDrain : s.service = .cancelRequested ∨ s.service = .acked →
      ∀ i, (s.workers i).isDone = true
  awaitingService : s.mainp = .awaiting →
      s.service = .cancelRequested ∨ s.service = .acked
  returnedState : ∀ b, s.mainp = .returned b →
      s.service = .acked ∧ (b = true ↔ ∀ i, s.workers i ≠ .done .escaped)

/-- The invariant is preserved by every scheduler step. -/
lemma step_inv {M : Nat} {s s' : MState M} (hs : Step M s s') (ih : SchedInv s) :
    SchedInv s' := by
  cases hs with
  | startServe h =>
      constructor
      · exact ih.semCap
      · intro hm
        exact absurd (show MPhase.running = .start from hm) (by simp)
      · intro hm
        exact absurd (show MPhase.running = .start from hm) (by simp)
      · intro hv
        exact absurd (show SPhase.running = .notStarted from hv) (by simp)
      · intro _
        rfl
      · intro hv
        rcases hv with hv | hv <;>
          exact absurd (show SPhase.running = _ from hv) (by simp)
      · intro hm
        exact absurd (show MPhase.running = .awaiting from hm) (by simp)
      · intro b hb
        exact absurd (show MPhase.running = .returned b from hb) (by simp)
  | acquire i h1 h2 h3 =>
      have hni : s.workers i ≠ WPhase.holding := by simp [h2]
      have hcard := card_update_to_holding s.workers i hni
      constructor
      · show s.sem - 1 + _ = 12
        have := ih.semCap
        simp only [holdingCount] at this ⊢
        omega
      · intro hm
        rw [show (_ : MState M).mainp = s.mainp from rfl, h1] at hm
        exact absurd hm (by simp)
      · intro hm
        rw [show (_ : MState M).mainp = s.mainp from rfl, h1] at hm
        exact absurd hm (by simp)
      · intro hv
        exact absurd (ih.serviceStartOnly hv) (by simp [h1])
      · intro _
        exact ih.runningService h1
      · intro hv
        have hrun := ih.runningService h1
        rcases hv with hv | hv <;> rw [show (_ : MState M).service = s.service from rfl, hrun] at hv <;>
          exact absurd hv (by simp)
      · intro hm
        rw [show (_ : MState M).mainp = s.mainp from rfl, h1] at hm
        exact absurd hm (by simp)
      · intro b hb
        rw [show (_ : MState M).mainp = s.mainp from rfl, h1] at hb
        exact absurd hb (by simp)
  | finish i o h1 h2 =>
      have hcard := card_update_from_holding s.workers i (.done o) h2 (by simp)
      constructor
      · show s.sem + 1 + _ = 12
        have := ih.semCap
        simp only [holdingCount] at this ⊢
        omega
      · intro hm
        rw [show (_ : MState M).mainp = s.mainp from rfl, h1] at hm
        exact absurd hm (by simp)
      · intro hm
        rw [show (_ : MState M).mainp = s.mainp from rfl, h1] at hm
        exact absurd hm (by simp)
      · intro hv
        exact absurd (ih.serviceStartOnly hv) (by simp [h1])
      · intro _
        exact ih.runningService h1
      · intro hv
        have hrun := ih.runningService h1
        rcases hv with hv | hv <;> rw [show (_ : MState M).service = s.service from rfl, hrun] at hv <;>
          exact absurd hv (by simp)
      · intro hm
        rw [show (_ : MState M).mainp = s.mainp from rfl, h1] at hm
        exact absurd hm (by simp)
      · intro b hb
        rw [show (_ : MState M).mainp = s.mainp from rfl, h1] at hb
        exact absurd hb (by simp)
  | cancelWaiting i j h1 h2 h3 =>
      have hcard := card_update_other s.workers i (.done .cancelled) (by simp [h2]) (by simp)
      constructor
      · show s.sem + _ = 12
        have := ih.semCap
        simp only [holdingCount] at this ⊢
        omega
      · intro hm
        rw [show (_ : MState M).mainp = s.mainp from rfl, h1] at hm
        exact absurd hm (by simp)
      · intro hm
        rw [show (_ : MState M).mainp = s.mainp from rfl, h1] at hm
        exact absurd hm (by simp)
      · intro hv
        exact absurd (ih.serviceStartOnly hv) (by simp [h1])
      · intro _
        exact ih.runningService h1
      · intro hv
        have hrun := ih.runningService h1
        rcases hv with hv | hv <;> rw [show (_ : MState M).service = s.service from rfl, hrun] at hv <;>
          exact absurd hv (by simp)
      · intro hm
        rw [show (_ : MState M).mainp = s.mainp from rfl, h1] at hm
        exact absurd hm (by simp)
      · intro b hb
        rw [show (_ : MState M).mainp = s.mainp from rfl, h1] at hb
        exact absurd hb (by simp)
  | drainCancel h1 h2 =>
      constructor
      · exact ih.semCap
      · intro hm
        exact absurd (show MPhase.awaiting = .start from hm) (by simp)
      · intro hm
        exact absurd (show MPhase.awaiting = .start from hm) (by simp)
      · intro hv
        exact absurd (show SPhase.cancelRequested = .notStarted from hv) (by simp)
      · intro hm
        exact absurd (show MPhase.awaiting = .running from hm) (by simp)
      · intro _
        exact h2
      · intro _
        exact Or.inl rfl
      · intro b hb
        exact absurd (show MPhase.awaiting = .returned b from hb) (by simp)
  | ack h =>
      constructor
      · exact ih.semCap
      · intro hm
        have hsv := ih.startService hm
        rw [h] at hsv
        exact absurd hsv (by simp)
      · intro hm
        have hsv := ih.startService hm
        rw [h] at hsv
        exact absurd hsv (by simp)
      · intro hv
        exact absurd (show SPhase.acked = .notStarted from hv) (by simp)
      · intro hm
        have hsv := ih.runningService hm
        rw [h] at hsv
        exact absurd hsv (by simp)
      · intro _
        exact ih.cancelAfterDrain (Or.inl h)
      · intro _
        exact Or.inr rfl
      · intro b hb
        have hsv := (ih.returnedState b hb).1
        rw [h] at hsv
        exact absurd hsv (by simp)
  | ret h1 h2 =>
      constructor
      · exact ih.semCap
      · intro hm
        exact absurd (show MPhase.returned (noEscape s) = .start from hm) (by simp)
      · intro hm
        exact absurd (show MPhase.returned (noEscape s) = .start from hm) (by simp)
      · intro hv
        rw [show (_ : MState M).service = s.service from rfl, h2] at hv
        exact absurd hv (by simp)
      · intro hm
        exact absurd (show MPhase.returned (noEscape s) = .running from hm) (by simp)
      · intro _
        exact ih.cancelAfterDrain (Or.inr h2)
      · intro hm
        exact absurd (show MPhase.returned (noEscape s) = .awaiting from hm) (by simp)
      · intro b hb
        have hbb : noEscape s = b := by
          have hinj : MPhase.returned (noEscape s) = MPhase.returned b := hb
          injection hinj
        refine ⟨h2, ?_⟩
        subst hbb
        simp [noEscape]

/-- Every reachable scheduler state satisfies the invariant. -/
theorem reachable_inv {M : Nat} {s : MState M} (h : Reachable M s) : SchedInv s := by
  induction h with
  | init =>
      constructor
      · simp [initState, holdingCount]
      · intro _ i
        rfl
      · intro _
        rfl
      · intro _
        rfl
      · intro hm
        exact absurd (show MPhase.start = .running from hm) (by simp)
      · intro hv
        rcases hv with hv | hv <;>
          exact absurd (show SPhase.notStarted = _ from hv) (by simp)
      · intro hm
        exact absurd (show MPhase.start = .awaiting from hm) (by simp)
      · intro b hb
        exact absurd (show MPhase.start = .returned b from hb) (by simp)
  | step _ hs ih =>
      exact step_inv hs ih

/-- `range(a, b)` has `max (b - a) 0` elements. -/
lemma pyRange_length (a b : Int) : (pyRange a b).length = (b - a).toNat := by
  unfold pyRange
  rw [List.length_map, List.length_range]

/-- Membership in `range(a, b)`. -/
lemma mem_pyRange {a b x : Int} : x ∈ pyRange a b ↔ a ≤ x ∧ x < b := by
  simp only [pyRange, List.mem_map, List.mem_range]
  constructor
  · rintro ⟨k, hk, rfl⟩
    omega
  · rintro ⟨h1, h2⟩
    exact ⟨(x - a).toNat, by omega, by omega⟩

/-- `range(a, b)` is strictly increasing. -/
lemma pyRange_pairwise (a b : Int) : (pyRange a b).Pairwise (· < ·) := by
  unfold pyRange
  rw [List.pairwise_map]
  exact (List.pairwise_lt_range _).imp (by intro x y h; omega)

/-- The lexicographic "created earlier" order on `(unit_id, repetition)`
pairs: id-major, repeat-minor. -/
def createdBefore (p q : Int × Int) : Prop :=
  p.1 < q.1 ∨ (p.1 = q.1 ∧ p.2 < q.2)

/-- Membership in the spawned pair list. -/
lemma mem_spawnPairs {start stop repeatCount : Int} {p : Int × Int} :
    p ∈ spawnPairs start stop repeatCount ↔
      (start ≤ p.1 ∧ p.1 < stop) ∧ 0 ≤ p.2 ∧ p.2 < repeatCount := by
  rcases p with ⟨x, y⟩
  simp only [spawnPairs, List.mem_flatten, List.mem_map]
  constructor
  · rintro ⟨l, ⟨id, hid, rfl⟩, hmem⟩
    obtain ⟨r, hr, hpair⟩ := List.mem_map.1 hmem
    obtain ⟨h1, h2⟩ := Prod.mk.injEq .. ▸ hpair
    subst h1
    subst h2
    exact ⟨mem_pyRange.1 hid, mem_pyRange.1 hr⟩
  · rintro ⟨hx, hy⟩
    refine ⟨(pyRange 0 repeatCount).map fun r => (x, r), ⟨x, mem_pyRange.2 hx, rfl⟩, ?_⟩
    exact List.mem_map.2 ⟨y, mem_pyRange.2 hy, rfl⟩

/-- The spawned pair list is sorted in creation order (id-major,
repeat-minor), hence in particular all pairs are distinct. -/
lemma spawnPairs_pairwise (start stop repeatCount : Int) :
    (spawnPairs start stop repeatCount).Pairwise createdBefore := by
  unfold spawnPairs
  rw [List.pairwise_flatten]
  constructor
  · intro l hl
    obtain ⟨id, hid, rfl⟩ := List.mem_map.1 hl
    rw [List.pairwise_map]
    exact (pyRange_pairwise 0 repeatCount).imp fun h => Or.inr ⟨rfl, h⟩
  · rw [List.pairwise_map]
    refine (pyRange_pairwise start stop).imp ?_
    intro id1 id2 h x hx y hy
    obtain ⟨r1, _, rfl⟩ := List.mem_map.1 hx
    obtain ⟨r2, _, rfl⟩ := List.mem_map.1 hy
    exact Or.inl h

/-- Exact task count of the fan-out. -/
lemma spawnPairs_length (start stop repeatCount : Int) :
    (spawnPairs start stop repeatCount).length
      = (stop - start).toNat * repeatCount.toNat := by
  unfold spawnPairs
  rw [List.length_flatten, List.map_map]
  have hmap : (List.map (List.length ∘ fun id => (pyRange 0 repeatCount).map fun r => (id, r))
      (pyRange start stop)) = List.replicate (pyRange start stop).length repeatCount.toNat := by
    rw [← List.map_const]
    refine List.map_congr_left ?_
    intro id _
    simp [pyRange_length, Function.const]
  rw [hmap, List.sum_replicate, smul_eq_mul, pyRange_length]

/-- When the pre-`try` part of `work` succeeds (steps 2–3: config
application, motion lookup, selection, `cur_info` assertion), `work`
reduces to the `try`/`except`/`finally` tail. -/
lemma work_eq_tail {s : Session} {debate_id : Int} {motion : String × String}
    {info : DebateInfo} (args : ScriptArgs)
    (h1 : s.update_config = .ok ())
    (h2 : pyGet s.motions debate_id = some motion)
    (h3 : s.select_debate motion.1 = .ok ())
    (h4 : s.cur_info = some info) :
    work s debate_id args
      = workTail args s (applyConfig args s.config_data)
          (motion.1 ++ " --- " ++ info.motion) := by
  simp only [work, h1, h2, h3, h4]

/-- The `finally` of the tail runs the reset exactly once on every path. -/
lemma workTail_resetCount (args : ScriptArgs) (s : Session) (config : ConfigData)
    (title : String) : (workTail args s config title).resetCount = 1 := by
  unfold workTail
  rcases tryBody args s title with ⟨lines, _ | e⟩
  · rfl
  · cases e <;> rfl

/-- If the `try` body does not raise `CancelledError`, nothing escapes the
tail: `except Exception` catches everything else. -/
lemma workTail_escaped (args : ScriptArgs) (s : Session) (config : ConfigData)
    (title : String) (h : (tryBody args s title).2 ≠ some PyErr.cancelled) :
    (workTail args s config title).escaped = none := by
  unfold workTail
  rcases htb : tryBody args s title with ⟨lines, _ | e⟩
  · rfl
  · cases e with
    | exc m => rfl
    | cancelled =>
        rw [htb] at h
        simp at h

/-- The report can only raise the `AssertionError` of line 90, never a
`CancelledError`. -/
lemma runReport_error_exc {args : ScriptArgs} {r : DebateResult} {e : PyErr}
    (h : runReport args r = .error e) : ∃ m, e = PyErr.exc m := by
  unfold runReport at h
  split at h
  · unfold summaryReport at h
    split at h
    · injection h with h
      exact ⟨"AssertionError", h.symm⟩
    · exact absurd h (by simp)
  · exact absurd h (by simp)

/-- Every line of a successful report is a score or winner line — never
the cancelled notice, a saved-at line or a failure line. -/
lemma runReport_mem_shape {args : ScriptArgs} {r : DebateResult} {lines : List OutLine}
    (h : runReport args r = .ok lines) :
    ∀ l ∈ lines, l ≠ OutLine.debateCancelled ∧ l.isSavedAt = false ∧ l.isFailed = false := by
  unfold runReport at h
  split at h
  · unfold summaryReport at h
    split at h
    · exact absurd h (by simp)
    · injection h with h
      subst h
      intro l hl
      rcases List.mem_append.1 hl with hl | hl
      · obtain ⟨dv, _, rfl⟩ := List.mem_map.1 hl
        exact ⟨by simp, rfl, rfl⟩
      · rw [List.mem_singleton] at hl
        subst hl
        exact ⟨by simp, rfl, rfl⟩
  · injection h with h
    subst h
    intro l hl
    unfold dimensionalReport at hl
    rcases List.mem_append.1 hl with hl | hl
    · obtain ⟨p, _, rfl⟩ := List.mem_map.1 hl
      exact ⟨by simp, rfl, rfl⟩
    · rw [List.mem_singleton] at hl
      subst hl
      exact ⟨by simp, rfl, rfl⟩

/-- If the session never signals cancellation from `start_debate` or
`save_record`, nothing escapes the `try` body as a `CancelledError`. -/
lemma tryBody_snd_not_cancelled {args : ScriptArgs} {s : Session} {title : String}
    (h5 : s.start_debate ≠ .error .cancelled)
    (h6 : s.save_record ≠ .error .cancelled) :
    (tryBody args s title).2 ≠ some PyErr.cancelled := by
  unfold tryBody
  rcases hsd : s.start_debate with e | r
  · cases e with
    | exc m => simp
    | cancelled => exact absurd hsd h5
  · rcases r with _ | r
    · rcases hsr : s.save_record with e | loc
      · cases e with
        | exc m => simp
        | cancelled => exact absurd hsr h6
      · simp
    · rcases hrr : runReport args r with e | lines
      · obtain ⟨m, rfl⟩ := runReport_error_exc hrr
        simp [hrr]
      · rcases hsr : s.save_record with e | loc
        · cases e with
          | exc m => simp [hrr, hsr]
          | cancelled => exact absurd hsr h6
        · simp [hrr, hsr]

/-- Steps 2–3 succeeding and no cancellation signalled: `work` contains
every error itself. -/
lemma work_escaped_none {s : Session} {debate_id : Int} {motion : String × String}
    {info : DebateInfo} (args : ScriptArgs)
    (h1 : s.update_config = .ok ())
    (h2 : pyGet s.motions debate_id = some motion)
    (h3 : s.select_debate motion.1 = .ok ())
    (h4 : s.cur_info = some info)
    (h5 : s.start_debate ≠ .error .cancelled)
    (h6 : s.save_record ≠ .error .cancelled) :
    (work s debate_id args).escaped = none := by
  rw [work_eq_tail args h1 h2 h3 h4]
  exact workTail_escaped _ _ _ _ (tryBody_snd_not_cancelled h5 h6)

/-- Steps 2–3 succeeding: the reset of the `finally` runs exactly once,
whatever `start_debate`, the report and `save_record` do. -/
lemma work_resetCount_one {s : Session} {debate_id : Int} {motion : String × String}
    {info : DebateInfo} (args : ScriptArgs)
    (h1 : s.update_config = .ok ())
    (h2 : pyGet s.motions debate_id = some motion)
    (h3 : s.select_debate motion.1 = .ok ())
    (h4 : s.cur_info = some info) :
    (work s debate_id args).resetCount = 1 := by
  rw [work_eq_tail args h1 h2 h3 h4]
  exact workTail_resetCount ..

/-- A run step raising an ordinary exception is reported by printing its
message. -/
lemma work_run_failed_mem {s : Session} {debate_id : Int} {motion : String × String}
    {info : DebateInfo} (args : ScriptArgs)
    (h1 : s.update_config = .ok ())
    (h2 : pyGet s.motions debate_id = some motion)
    (h3 : s.select_debate motion.1 = .ok ())
    (h4 : s.cur_info = some info)
    {m : String} (hm : s.start_debate = .error (.exc m)) :
    OutLine.failed m ∈ (work s debate_id args).output := by
  rw [work_eq_tail args h1 h2 h3 h4]
  simp [workTail, tryBody, hm]

/-- A concrete configuration value used by the concrete test sessions. -/
def cfgDemo : ConfigData :=
  ⟨⟨5⟩, ⟨⟨.OPENAI, ⟨3⟩, ⟨"gpt-x"⟩⟩⟩, ⟨⟨false, true, false, false⟩, ⟨false, true⟩⟩,
   ⟨false, [⟨"general", 1⟩, ⟨"language", 1⟩]⟩, ⟨true, false⟩⟩

/-- Default script arguments (all CLI defaults). -/
def argsDemo : ScriptArgs := {}

/-- A session on which every call succeeds and the debate run returns the
"no result" signal (`None`). -/
def sessionDemo : Session where
  config_data := cfgDemo
  update_config := .ok ()
  motions := [("m1", "motion-1")]
  select_debate := fun _ => .ok ()
  cur_info := some ⟨"Topic"⟩
  start_debate := .ok none
  save_record := .ok "rec/path"

/-- Like `sessionDemo` but the run step (`start_debate`) raises. -/
def sessionRunRaises : Session :=
  { sessionDemo with start_debate := .error (.exc "boom") }

/-- Like `sessionDemo` but step 2 (`update_config`) raises. -/
def sessionCfgRaises : Session :=
  { sessionDemo with update_config := .error (.exc "cfg-fail") }

/-- Like `sessionDemo` but step 3 (`select_debate`) raises. -/
def sessionSelRaises : Session :=
  { sessionDemo with select_debate := fun _ => .error (.exc "sel-fail") }

/-- C3 (amended): once the pre-`try` part of `work` has succeeded (config
application, motion lookup, selection, `cur_info` assertion), the
session's debate-state reset runs exactly once before `work` returns —
for every outcome of the run, reporting and persistence steps, including
a raised error and a cancellation signal.  (As stated the claim also
covered a raising *selection* step; see the counterexample.) -/
theorem session_reset_once_inside_try (s : Session) (debate_id : Int)
    (args : ScriptArgs) (motion : String × String) (info : DebateInfo)
    (h1 : s.update_config = .ok ())
    (h2 : pyGet s.motions debate_id = some motion)
    (h3 : s.select_debate motion.1 = .ok ())
    (h4 : s.cur_info = some info) :
    (work s debate_id args).resetCount = 1 :=
  work_resetCount_one args h1 h2 h3 h4

/-- C3 witness: a unit whose run step raises still resets exactly once. -/
theorem session_reset_once_inside_try_witness :
    (work sessionRunRaises 0 argsDemo).resetCount = 1 :=
  session_reset_once_inside_try sessionRunRaises 0 argsDemo ("m1", "motion-1")
    ⟨"Topic"⟩ rfl rfl rfl rfl

/-- C3 counterexample: a unit whose *selection* step (step 3) raises never
reaches the `try`/`finally`, so `reset_debate` is awaited zero times, not
exactly once. -/
theorem session_reset_skipped_on_select_error :
    (work sessionSelRaises 0 argsDemo).resetCount = 0 ∧
    (work sessionSelRaises 0 argsDemo).escaped = some (.exc "sel-fail") := by
  constructor <;> rfl

/-- C7: when the run step returns the "no result" signal (`None`), the
unit reports the cancelled notice — and that notice is emitted exactly in
this case: a present result never produces it, a raising run produces the
failure notice instead, so the cancelled report is distinct from both the
success summary and the error report. -/
theorem cancelled_run_reported_distinctly (s : Session) (debate_id : Int)
    (args : ScriptArgs) (motion : String × String) (info : DebateInfo)
    (h1 : s.update_config = .ok ())
    (h2 : pyGet s.motions debate_id = some motion)
    (h3 : s.select_debate motion.1 = .ok ())
    (h4 : s.cur_info = some info) :
    (s.start_debate = .ok none →
      OutLine.debateCancelled ∈ (work s debate_id args).output) ∧
    (∀ loc, s.start_debate = .ok none → s.save_record = .ok loc →
      (work s debate_id args).output =
        [OutLine.startLn (motion.1 ++ " --- " ++ info.motion),
         OutLine.endLn (motion.1 ++ " --- " ++ info.motion),
         OutLine.debateCancelled, OutLine.savedAt loc]) ∧
    (∀ r, s.start_debate = .ok (some r) →
      OutLine.debateCancelled ∉ (work s debate_id args).output) ∧
    (∀ m, s.start_debate = .error (.exc m) →
      OutLine.debateCancelled ∉ (work s debate_id args).output ∧
      OutLine.failed m ∈ (work s debate_id args).output) := by
  rw [work_eq_tail args h1 h2 h3 h4]
  refine ⟨?_, ?_, ?_, ?_⟩
  · intro hsd
    rcases hsr : s.save_record with e | loc
    · cases e <;> simp [workTail, tryBody, hsd, hsr]
    · simp [workTail, tryBody, hsd, hsr]
  · intro loc hsd hsr
    simp [workTail, tryBody, hsd, hsr]
  · intro r hsd
    rcases hrr : runReport args r with e | lines
    · obtain ⟨m, rfl⟩ := runReport_error_exc hrr
      simp [workTail, tryBody, hsd, hrr]
    · have hnc : OutLine.debateCancelled ∉ lines := fun hl =>
        ((runReport_mem_shape hrr) _ hl).1 rfl
      rcases hsr : s.save_record with e | loc
      · cases e with
        | exc m => simp [workTail, tryBody, hsd, hrr, hsr, hnc]
        | cancelled => simp [workTail, tryBody, hsd, hrr, hsr, hnc]
      · simp [workTail, tryBody, hsd, hrr, hsr, hnc]
  · intro m hsd
    constructor
    · simp [workTail, tryBody, hsd]
    · simp [workTail, tryBody, hsd]

/-- C7 witness: the all-succeeding session whose run returns `None`
reports the cancelled notice, between the "End" line and the "saved at"
line. -/
theorem cancelled_run_reported_distinctly_witness :
    OutLine.debateCancelled ∈ (work sessionDemo 0 argsDemo).output ∧
    (work sessionDemo 0 argsDemo).output =
      [OutLine.startLn ("m1" ++ " --- " ++ "Topic"),
       OutLine.endLn ("m1" ++ " --- " ++ "Topic"),
       OutLine.debateCancelled, OutLine.savedAt "rec/path"] := by
  have h := cancelled_run_reported_distinctly sessionDemo 0 argsDemo
    ("m1", "motion-1") ⟨"Topic"⟩ rfl rfl rfl rfl
  exact ⟨h.1 rfl, h.2.1 "rec/path" rfl rfl⟩

/-- C8 (amended): each unit emits its "Start" line and then: on a
successful run, "End" + the report + the "saved at" line; on a
"no result" run, "End" + the cancelled notice + the "saved at" line; and
when the run, reporting or persistence step raises an ordinary exception,
the lines printed so far followed by "Failed: <msg>" — with *no*
"saved at" line on the failure path (persistence is skipped or was the
failing step itself). -/
theorem unit_output_sequence (s : Session) (debate_id : Int)
    (args : ScriptArgs) (motion : String × String) (info : DebateInfo)
    (h1 : s.update_config = .ok ())
    (h2 : pyGet s.motions debate_id = some motion)
    (h3 : s.select_debate motion.1 = .ok ())
    (h4 : s.cur_info = some info) :
    (∀ r lines loc, s.start_debate = .ok (some r) → runReport args r = .ok lines →
      s.save_record = .ok loc →
      (work s debate_id args).output =
        OutLine.startLn (motion.1 ++ " --- " ++ info.motion)
          :: OutLine.endLn (motion.1 ++ " --- " ++ info.motion)
          :: (lines ++ [OutLine.savedAt loc])) ∧
    (∀ loc, s.start_debate = .ok none → s.save_record = .ok loc →
      (work s debate_id args).output =
        [OutLine.startLn (motion.1 ++ " --- " ++ info.motion),
         OutLine.endLn (motion.1 ++ " --- " ++ info.motion),
         OutLine.debateCancelled, OutLine.savedAt loc]) ∧
    (∀ m, s.start_debate = .error (.exc m) →
      (work s debate_id args).output =
        [OutLine.startLn (motion.1 ++ " --- " ++ info.motion), OutLine.failed m] ∧
      (work s debate_id args).output.any OutLine.isSavedAt = false) ∧
    (∀ r lines m, s.start_debate = .ok (some r) → runReport args r = .ok lines →
      s.save_record = .error (.exc m) →
      (work s debate_id args).output =
        OutLine.startLn (motion.1 ++ " --- " ++ info.motion)
          :: OutLine.endLn (motion.1 ++ " --- " ++ info.motion)
          :: (lines ++ [OutLine.failed m]) ∧
      (work s debate_id args).output.any OutLine.isSavedAt = false) ∧
    (∀ r m, s.start_debate = .ok (some r) → runReport args r = .error (.exc m) →
      (work s debate_id args).output =
        [OutLine.startLn (motion.1 ++ " --- " ++ info.motion),
         OutLine.endLn (motion.1 ++ " --- " ++ info.motion), OutLine.failed m] ∧
      (work s debate_id args).output.any OutLine.isSavedAt = false) ∧
    (∀ m, s.start_debate = .ok none → s.save_record = .error (.exc m) →
      (work s debate_id args).output =
        [OutLine.startLn (motion.1 ++ " --- " ++ info.motion),
         OutLine.endLn (motion.1 ++ " --- " ++ info.motion),
         OutLine.debateCancelled, OutLine.failed m] ∧
      (work s debate_id args).output.any OutLine.isSavedAt = false) := by
  rw [work_eq_tail args h1 h2 h3 h4]
  refine ⟨?_, ?_, ?_, ?_, ?_, ?_⟩
  · intro r lines loc hsd hrr hsr
    simp [workTail, tryBody, hsd, hrr, hsr]
  · intro loc hsd hsr
    simp [workTail, tryBody, hsd, hsr]
  · intro m hsd
    constructor
    · simp [workTail, tryBody, hsd]
    · simp [workTail, tryBody, hsd, OutLine.isSavedAt]
  · intro r lines m hsd hrr hsr
    have hns : ∀ l ∈ lines, l.isSavedAt = false := fun l hl =>
      ((runReport_mem_shape hrr) l hl).2.1
    constructor
    · simp [workTail, tryBody, hsd, hrr, hsr]
    · simp only [workTail, tryBody, hsd, hrr, hsr]
      rw [List.any_eq_false]
      intro x hx
      rcases List.mem_cons.1 hx with rfl | hx
      · simp [OutLine.isSavedAt]
      rcases List.mem_cons.1 hx with rfl | hx
      · simp [OutLine.isSavedAt]
      rcases List.mem_append.1 hx with hx | hx
      · simp [hns x hx]
      · rw [List.mem_singleton] at hx
        subst hx
        simp [OutLine.isSavedAt]
  · intro r m hsd hrr
    constructor
    · simp [workTail, tryBody, hsd, hrr]
    · simp [workTail, tryBody, hsd, hrr, OutLine.isSavedAt]
  · intro m hsd hsr
    constructor
    · simp [workTail, tryBody, hsd, hsr]
    · simp [workTail, tryBody, hsd, hsr, OutLine.isSavedAt]

/-- A session whose run produces a present result with one dimensional
verdict, everything else succeeding. -/
def sessionSuccess : Session :=
  { sessionDemo with
    start_debate :=
      .ok (some ⟨some ⟨[⟨"Alice", 7⟩], ⟨"Alice"⟩⟩, [⟨⟨[⟨"Alice", 7⟩], ⟨"Alice"⟩⟩⟩]⟩) }

/-- C8 witness: the success-path output shape at a concrete session. -/
theorem unit_output_sequence_witness :
    (work sessionSuccess 0 argsDemo).output =
      OutLine.startLn ("m1" ++ " --- " ++ "Topic")
        :: OutLine.endLn ("m1" ++ " --- " ++ "Topic")
        :: ([OutLine.scoresLn "Alice" [7], OutLine.winnersLn ["Alice"]]
            ++ [OutLine.savedAt "rec/path"]) :=
  (unit_output_sequence sessionSuccess 0 argsDemo ("m1", "motion-1") ⟨"Topic"⟩
      rfl rfl rfl rfl).1
    _ [OutLine.scoresLn "Alice" [7], OutLine.winnersLn ["Alice"]] "rec/path" rfl rfl rfl

/-- C8 counterexample: a unit whose run step raises prints "Start" and
"Failed: boom" and then *no* "saved at" line at all, so the claimed
Start/outcome/saved-at sequence does not hold on the failure path; and a
unit whose run returns "no result" prints the "End" line *and* the
cancelled report, so the cancelled report is not the exactly-one outcome
line either. -/
theorem failed_run_has_no_saved_line :
    (work sessionRunRaises 0 argsDemo).output =
      [OutLine.startLn "m1 --- Topic", OutLine.failed "boom"] ∧
    (work sessionRunRaises 0 argsDemo).output.any OutLine.isSavedAt = false ∧
    (work sessionDemo 0 argsDemo).output =
      [OutLine.startLn "m1 --- Topic", OutLine.endLn "m1 --- Topic",
       OutLine.debateCancelled, OutLine.savedAt "rec/path"] := by
  refine ⟨rfl, rfl, rfl⟩

/-- A spawned task's session assignment succeeds, its pre-`try` steps
(config application, motion lookup, selection, `cur_info` assertion)
succeed, and the session never signals cancellation: the conditions under
which `run_batch.py` contains a unit's errors at the unit boundary. -/
def ContainedUnit (assigned : Except PyErr Session) (debate_id : Int) : Prop :=
  ∃ s, assigned = .ok s ∧
    s.update_config = .ok () ∧
    (∃ motion, pyGet s.motions debate_id = some motion ∧
      s.select_debate motion.1 = .ok ()) ∧
    (∃ info, s.cur_info = some info) ∧
    s.start_debate ≠ .error .cancelled ∧
    s.save_record ≠ .error .cancelled

/-- C1 (amended): errors raised during the run, reporting and persistence
steps (4–7) are caught at the unit boundary and reported by printing
"Failed: <msg>"; under that containment no unit's exception escapes, every
scheduled unit completes with its own report and cleanup, and the
scheduler returns normally.  (As stated the claim also covered the config
application and selection steps, which are *outside* the `try`; see the
counterexample.) -/
theorem workunit_error_containment (assign : Int × Int → Except PyErr Session)
    (args : ScriptArgs)
    (h : ∀ p ∈ spawnPairs args.start args.stop args.repeatCount,
      ContainedUnit (assign p) p.1) :
    mainReturnsNormally assign args = true ∧
    (∀ u ∈ batchUnitRuns assign args, u.escaped = none ∧ u.resetCount = 1) ∧
    (∀ p ∈ spawnPairs args.start args.stop args.repeatCount, ∀ s m,
      assign p = .ok s → s.start_debate = .error (.exc m) →
      OutLine.failed m ∈ (wait_and_work (assign p) p.1 args).output) := by
  have hunit : ∀ p ∈ spawnPairs args.start args.stop args.repeatCount,
      (wait_and_work (assign p) p.1 args).escaped = none ∧
      (wait_and_work (assign p) p.1 args).resetCount = 1 := by
    intro p hp
    obtain ⟨s, ha, h1, ⟨motion, h2, h3⟩, ⟨info, h4⟩, h5, h6⟩ := h p hp
    rw [ha]
    exact ⟨work_escaped_none args h1 h2 h3 h4 h5 h6,
      work_resetCount_one args h1 h2 h3 h4⟩
  refine ⟨?_, ?_, ?_⟩
  · rw [mainReturnsNormally, List.all_eq_true]
    intro u hu
    obtain ⟨p, hp, rfl⟩ := List.mem_map.1 hu
    rw [(hunit p hp).1]
    rfl
  · intro u hu
    obtain ⟨p, hp, rfl⟩ := List.mem_map.1 hu
    exact hunit p hp
  · intro p hp s m ha hm
    obtain ⟨s', ha', h1, ⟨motion, h2, h3⟩, ⟨info, h4⟩, h5, h6⟩ := h p hp
    rw [ha] at ha'
    injection ha' with hss
    subst hss
    rw [ha]
    exact work_run_failed_mem args h1 h2 h3 h4 hm

/-- C1 counterexample: an error raised by the *config application* step
(step 2) is not caught at the unit boundary: it escapes `work` with
nothing printed, so the unit reports no message and its exception reaches
the fan-out group (aborting the batch) instead of being contained. -/
theorem config_error_not_contained :
    (work sessionCfgRaises 0 argsDemo).escaped = some (.exc "cfg-fail") ∧
    (work sessionCfgRaises 0 argsDemo).output = [] := by
  constructor <;> rfl

/-- C9: an exception raised by `platform.assign` (step 1) is not contained
at the unit boundary — the `async with semaphore` still releases the gate
slot, but the exception escapes the task into the fan-out group; by
contrast an ordinary exception raised by the run step inside `work` is
caught and printed. -/
theorem assign_error_escapes (debate_id : Int) (args : ScriptArgs) (e : PyErr)
    (s : Session) (motion : String × String) (info : DebateInfo) (m : String)
    (h1 : s.update_config = .ok ())
    (h2 : pyGet s.motions debate_id = some motion)
    (h3 : s.select_debate motion.1 = .ok ())
    (h4 : s.cur_info = some info)
    (hm : s.start_debate = .error (.exc m)) :
    ((wait_and_work (.error e) debate_id args).slotReleased = true ∧
     (wait_and_work (.error e) debate_id args).escaped = some e) ∧
    ((wait_and_work (.ok s) debate_id args).slotReleased = true ∧
     (wait_and_work (.ok s) debate_id args).escaped = none ∧
     OutLine.failed m ∈ (wait_and_work (.ok s) debate_id args).output) := by
  have he : (work s debate_id args).escaped = none := by
    rw [work_eq_tail args h1 h2 h3 h4]
    simp [workTail, tryBody, hm]
  exact ⟨⟨rfl, rfl⟩, rfl, he, work_run_failed_mem args h1 h2 h3 h4 hm⟩

/-- C9 witness: a failing assignment escapes with its exception; a failing
run inside the same arguments is contained. -/
theorem assign_error_escapes_witness :
    ((wait_and_work (.error (.exc "assign-fail")) 0 argsDemo).slotReleased = true ∧
     (wait_and_work (.error (.exc "assign-fail")) 0 argsDemo).escaped
        = some (.exc "assign-fail")) ∧
    ((wait_and_work (.ok sessionRunRaises) 0 argsDemo).slotReleased = true ∧
     (wait_and_work (.ok sessionRunRaises) 0 argsDemo).escaped = none ∧
     OutLine.failed "boom" ∈ (wait_and_work (.ok sessionRunRaises) 0 argsDemo).output) :=
  assign_error_escapes 0 argsDemo (.exc "assign-fail") sessionRunRaises
    ("m1", "motion-1") ⟨"Topic"⟩ "boom" rfl rfl rfl rfl rfl

/-- C1 witness: five scheduled units (id 0, five repetitions), one of
which always raises in its run step; every unit still completes with a
clean reset, the raising unit prints its failure message, and the
scheduler returns normally. -/
theorem workunit_error_containment_witness :
    mainReturnsNormally
      (fun p => if p.2 = 2 then .ok sessionRunRaises else .ok sessionDemo)
      { start := 0, stop := 1, repeatCount := 5 } = true ∧
    OutLine.failed "boom" ∈
      (wait_and_work
        ((fun (p : Int × Int) => if p.2 = 2 then .ok sessionRunRaises else .ok sessionDemo)
          (0, 2))
        0 { start := 0, stop := 1, repeatCount := 5 }).output := by
  have h := workunit_error_containment
    (fun p => if p.2 = 2 then .ok sessionRunRaises else .ok sessionDemo)
    { start := 0, stop := 1, repeatCount := 5 }
    (by
      intro p hp
      obtain ⟨⟨hp0, hp1⟩, -⟩ := mem_spawnPairs.1 hp
      have hp0' : (0 : Int) ≤ p.1 := hp0
      have hp1' : p.1 < 1 := hp1
      have hx : p.1 = 0 := by omega
      by_cases hp2 : p.2 = 2
      · refine ⟨sessionRunRaises, by simp [hp2], rfl, ⟨("m1", "motion-1"), ?_, rfl⟩,
          ⟨⟨"Topic"⟩, rfl⟩, by simp [sessionRunRaises, sessionDemo],
          by simp [sessionRunRaises, sessionDemo]⟩
        rw [hx]
        rfl
      · refine ⟨sessionDemo, by simp [hp2], rfl, ⟨("m1", "motion-1"), ?_, rfl⟩,
          ⟨⟨"Topic"⟩, rfl⟩, by simp [sessionDemo], by simp [sessionDemo]⟩
        rw [hx]
        rfl)
  refine ⟨h.1, ?_⟩
  refine h.2.2 (0, 2) ?_ sessionRunRaises "boom" (by simp) rfl
  rw [mem_spawnPairs]
  refine ⟨⟨by decide, by decide⟩, by decide, by decide⟩

/-- C6: for a unit-id range `[start, stop)` and a repeat count, exactly
`(stop - start) * repeat` tasks are created, their `(unit_id, repetition)`
pairs are pairwise distinct, drawn from the id range × repetition range,
created in id-major repeat-minor order; e.g. `start=0, stop=3, repeat=2`
creates exactly the six pairs of `{0,1,2} × {0,1}` in that order. -/
theorem fanout_task_creation (start stop repeatCount : Int)
    (h1 : start ≤ stop) (h2 : 0 ≤ repeatCount) :
    ((spawnPairs start stop repeatCount).length : Int) = (stop - start) * repeatCount ∧
    (spawnPairs start stop repeatCount).Pairwise createdBefore ∧
    (spawnPairs start stop repeatCount).Nodup ∧
    (∀ p ∈ spawnPairs start stop repeatCount,
      (start ≤ p.1 ∧ p.1 < stop) ∧ 0 ≤ p.2 ∧ p.2 < repeatCount) ∧
    spawnPairs 0 3 2 = [(0, 0), (0, 1), (1, 0), (1, 1), (2, 0), (2, 1)] := by
  refine ⟨?_, spawnPairs_pairwise start stop repeatCount, ?_,
    fun p hp => mem_spawnPairs.1 hp, by decide⟩
  · rw [spawnPairs_length]
    push_cast
    rw [Int.toNat_of_nonneg (by omega), Int.toNat_of_nonneg h2]
  · refine (spawnPairs_pairwise start stop repeatCount).imp ?_
    intro p q hlt heq
    subst heq
    rcases hlt with hlt | ⟨-, hlt⟩ <;> exact lt_irrefl _ hlt

/-- C6 witness: the `start=0, stop=3, repeat=2` instance. -/
theorem fanout_task_creation_witness :
    ((spawnPairs 0 3 2).length : Int) = (3 - 0) * 2 ∧
    spawnPairs 0 3 2 = [(0, 0), (0, 1), (1, 0), (1, 1), (2, 0), (2, 1)] :=
  ⟨(fanout_task_creation 0 3 2 (by decide) (by decide)).1,
   (fanout_task_creation 0 3 2 (by decide) (by decide)).2.2.2.2⟩

/-- C2: the service task is started before any worker task runs (while it
is unstarted, every worker is still at its first instruction), its
cancellation is requested only in states where every worker task is
terminal, and the drain-to-cancel transition is enabled as soon as all
workers are terminal — unconditionally, whatever mix of outcomes
(completed, escaped, cancelled) the workers had. -/
theorem service_task_brackets_workers (M : Nat) (s : MState M)
    (h : Reachable M s) :
    (s.service = .notStarted → ∀ i, s.workers i = .waiting) ∧
    ((s.service = .cancelRequested ∨ s.service = .acked) →
      ∀ i, (s.workers i).isDone = true) ∧
    (s.mainp = .running → (∀ i, (s.workers i).isDone = true) →
      Step M s { s with service := .cancelRequested, mainp := .awaiting }) := by
  have inv := reachable_inv h
  exact ⟨fun hv => inv.startWaiting (inv.serviceStartOnly hv), inv.cancelAfterDrain,
    fun h1 h2 => Step.drainCancel s h1 h2⟩

/-- C2 witness: the invariant instantiated at the initial state with three
workers. -/
theorem service_task_brackets_workers_witness :
    ((initState 3).service = .notStarted → ∀ i, (initState 3).workers i = .waiting) ∧
    (((initState 3).service = .cancelRequested ∨ (initState 3).service = .acked) →
      ∀ i, ((initState 3).workers i).isDone = true) ∧
    ((initState 3).mainp = .running → (∀ i, ((initState 3).workers i).isDone = true) →
      Step 3 (initState 3)
        { initState 3 with service := .cancelRequested, mainp := .awaiting }) :=
  service_task_brackets_workers 3 (initState 3) Reachable.init

/-- C4: with gate capacity 12 and any number `M` of scheduled workers, in
every reachable state at most 12 workers are past the gate — the free
permits and the held slots always account exactly for the capacity — and
every step that takes a worker from `holding` to a terminal phase (any
outcome) returns its permit in that same step, before the task ends. -/
theorem gate_capacity_invariant (M : Nat) (s : MState M) (h : Reachable M s) :
    holdingCount s ≤ 12 ∧ s.sem + holdingCount s = 12 ∧
    (∀ (s' : MState M) (i : Fin M) (o : Outcome), Step M s s' →
      s.workers i = .holding → s'.workers i = .done o → s'.sem = s.sem + 1) := by
  have inv := reachable_inv h
  refine ⟨by have := inv.semCap; omega, inv.semCap, ?_⟩
  intro s' i o hs hold hdone
  cases hs with
  | startServe h =>
      have hd : s.workers i = WPhase.done o := hdone
      rw [hold] at hd
      simp at hd
  | acquire j h1 h2 h3 =>
      have hd : Function.update s.workers j WPhase.holding i = WPhase.done o := hdone
      by_cases hij : i = j
      · subst hij
        rw [Function.update_same] at hd
        simp at hd
      · rw [Function.update_noteq hij] at hd
        rw [hold] at hd
        simp at hd
  | finish j o' h1 h2 =>
      rfl
  | cancelWaiting j k h1 h2 h3 =>
      by_cases hij : i = j
      · subst hij
        rw [hold] at h2
        simp at h2
      · have hd : Function.update s.workers j (WPhase.done .cancelled) i
            = WPhase.done o := hdone
        rw [Function.update_noteq hij] at hd
        rw [hold] at hd
        simp at hd
  | drainCancel h1 h2 =>
      have hd : s.workers i = WPhase.done o := hdone
      rw [hold] at hd
      simp at hd
  | ack h =>
      have hd : s.workers i = WPhase.done o := hdone
      rw [hold] at hd
      simp at hd
  | ret h1 h2 =>
      have hd : s.workers i = WPhase.done o := hdone
      rw [hold] at hd
      simp at hd

/-- C4 witness: the capacity invariant instantiated at the initial state
with twenty workers (more workers than permits). -/
theorem gate_capacity_invariant_witness :
    holdingCount (initState 20) ≤ 12 ∧
    (initState 20).sem + holdingCount (initState 20) = 12 ∧
    (∀ (s' : MState 20) (i : Fin 20) (o : Outcome), Step 20 (initState 20) s' →
      (initState 20).workers i = .holding → s'.workers i = .done o →
      s'.sem = (initState 20).sem + 1) :=
  gate_capacity_invariant 20 (initState 20) Reachable.init

/-- C5: after drain (`main` in the `finally`, awaiting the cancelled
service task) the service task's cancellation has indeed been requested;
once the task acknowledges (`await task` raises `CancelledError`), the
step catching it with `except CancelledError: pass` is enabled and `main`
returns — and the return flag depends only on whether some worker's
exception escaped, never on the cancellation signal observed during this
wait, which is treated as normal shutdown. -/
theorem graceful_service_stop (M : Nat) (s : MState M) (h : Reachable M s) :
    (s.mainp = .awaiting → (s.service = .cancelRequested ∨ s.service = .acked)) ∧
    (s.mainp = .awaiting → s.service = .acked →
      Step M s { s with mainp := .returned (noEscape s) } ∧
      (noEscape s = true ↔ ∀ i, s.workers i ≠ .done .escaped)) ∧
    (∀ b, s.mainp = .returned b →
      s.service = .acked ∧ (b = true ↔ ∀ i, s.workers i ≠ .done .escaped)) := by
  have inv := reachable_inv h
  exact ⟨inv.awaitingService,
    fun h1 h2 => ⟨Step.ret s h1 h2, by simp [noEscape]⟩,
    inv.returnedState⟩

/-- A drained one-worker scheduler state: the single worker acquired the
gate, ran to completion and released its slot; `main` drained the inner
group, requested the service task's cancellation, the task acknowledged,
and `main` is awaiting it in the `finally`. -/
def drainedState : MState 1 :=
  ⟨12,
   Function.update (Function.update (fun _ => WPhase.waiting) 0 WPhase.holding) 0
     (WPhase.done Outcome.completed),
   SPhase.acked, MPhase.awaiting⟩

/-- The drained state is reached by the run
start-serve / acquire / finish / drain-cancel / acknowledge. -/
lemma drainedState_reachable : Reachable 1 drainedState := by
  have h1 : Reachable 1
      ({ sem := 12, workers := fun _ => WPhase.waiting, service := .running,
         mainp := .running } : MState 1) :=
    Reachable.step Reachable.init (Step.startServe (initState 1) rfl)
  have h2 := Reachable.step h1 (Step.acquire _ 0 rfl rfl (by decide))
  have h3 := Reachable.step h2 (Step.finish _ 0 Outcome.completed rfl (by decide))
  have h4 := Reachable.step h3 (Step.drainCancel _ rfl (by decide))
  exact Reachable.step h4 (Step.ack _ rfl)

/-- C5 witness: at the reachable drained state (worker finished, service
cancellation acknowledged, `main` awaiting the cancelled task), the
cancellation had indeed been requested, the catch-and-return step is
enabled, and the return flag is `true` — the cancellation observed during
the wait is normal shutdown, not an error. -/
theorem graceful_service_stop_witness :
    (drainedState.service = .cancelRequested ∨ drainedState.service = .acked) ∧
    Step 1 drainedState { drainedState with mainp := .returned (noEscape drainedState) } ∧
    noEscape drainedState = true := by
  have h := graceful_service_stop 1 drainedState drainedState_reachable
  exact ⟨h.1 rfl, (h.2.1 rfl rfl).1, ((h.2.1 rfl rfl).2).2 (by decide)⟩

/-- C10: an empty unit-id range (`stop ≤ start`) or a non-positive repeat
count creates zero worker tasks, and with zero workers the scheduler still
runs its full lifecycle: start the service task, drain (trivially), cancel
it, await the acknowledged cancellation, and return normally. -/
theorem empty_fanout_clean_shutdown :
    (∀ start stop repeatCount : Int, stop ≤ start ∨ repeatCount ≤ 0 →
      spawnPairs start stop repeatCount = []) ∧
    Reachable 0 ⟨12, fun _ => WPhase.waiting, SPhase.acked, MPhase.returned true⟩ := by
  constructor
  · intro start stop repeatCount h
    rcases h with h | h
    · have houter : pyRange start stop = [] := by
        unfold pyRange
        have hz : (stop - start).toNat = 0 := by omega
        rw [hz]
        rfl
      unfold spawnPairs
      rw [houter]
      rfl
    · have hinner : pyRange 0 repeatCount = [] := by
        unfold pyRange
        have hz : (repeatCount - 0).toNat = 0 := by omega
        rw [hz]
        rfl
      unfold spawnPairs
      rw [hinner]
      rw [List.flatten_eq_nil_iff]
      intro l hl
      obtain ⟨id, -, rfl⟩ := List.mem_map.1 hl
      rfl
  · have h1 : Reachable 0
        ({ sem := 12, workers := fun _ => WPhase.waiting, service := .running,
           mainp := .running } : MState 0) :=
      Reachable.step Reachable.init (Step.startServe (initState 0) rfl)
    have h2 : Reachable 0
        ⟨12, fun _ => WPhase.waiting, SPhase.cancelRequested, MPhase.awaiting⟩ :=
      Reachable.step h1 (Step.drainCancel _ rfl (fun i => i.elim0))
    have h3 : Reachable 0
        ⟨12, fun _ => WPhase.waiting, SPhase.acked, MPhase.awaiting⟩ :=
      Reachable.step h2 (Step.ack _ rfl)
    have h4 := Reachable.step h3 (Step.ret _ rfl rfl)
    have hne : noEscape (⟨12, fun _ => WPhase.waiting, SPhase.acked,
        MPhase.awaiting⟩ : MState 0) = true := by
      simp only [noEscape, decide_eq_true_eq]
      exact fun i => i.elim0
    rw [hne] at h4
    exact h4

/-- C10 witness: an inverted range and a zero repeat count each spawn
nothing. -/
theorem empty_fanout_clean_shutdown_witness :
    spawnPairs 3 1 2 = [] ∧ spawnPairs 0 4 0 = [] :=
  ⟨empty_fanout_clean_shutdown.1 3 1 2 (Or.inl (by decide)),
   empty_fanout_clean_shutdown.1 0 4 0 (Or.inr (by decide))⟩
